import Mathlib

/-
Verification development for the NEAR governance Telegram bot
(src/index.js, src/mongo.js, src/telegram.js).

The event ingestion and notification dispatch pipeline is shallowly
embedded: JavaScript values of uncertain shape become Lean structures of
Option-typed fields, JavaScript truthiness is modelled explicitly
(`tstr` treats the empty string as falsy, `tnum` treats 0 as falsy),
MongoDB collections become association lists with upsert semantics, and
each side-effecting call of the dispatch handlers is recorded in an
ordered trace of `Act`s.  Fallible store writes return `Except`;
a JavaScript try/catch that swallows an error is an explicit `match`.
-/

/-! ## JavaScript truthiness helpers -/

/-- JS truthiness of a possibly-absent string: `undefined`, `null` and `""`
are falsy.  `tstr x` is `x` filtered to truthy values. -/
def tstr : Option String → Option String
  | some s => if s = "" then none else some s
  | none => none

/-- JS truthiness of a possibly-absent number: `undefined`, `null` and `0`
are falsy. -/
def tnum : Option Int → Option Int
  | some n => if n = 0 then none else some n
  | none => none

/-- JS `a || b` where `a` is a possibly-absent string and `b` a string:
the first truthy value, else `b`. -/
def jsOrStr (a : Option String) (b : String) : String := (tstr a).getD b

/-! ## escapeHtml (src/telegram.js:10-18)

All five patterns of the source's chained `.replace(/../g, ..)` calls are
single characters, so a character-wise global replace is an exact model.
The replacements are applied in the source's order: `&` first, then `<`,
`>`, `"`, and the apostrophe. -/

/-- Replace every occurrence of the character `c` by the string `rep`. -/
def replaceChar (c : Char) (rep : List Char) : List Char → List Char
  | [] => []
  | x :: xs => if x = c then rep ++ replaceChar c rep xs else x :: replaceChar c rep xs

/-- src/telegram.js:10-18 — `escapeHtml(text)`: `if (!text) return ''` then the
five chained global replaces. -/
def escapeHtml (text : String) : String :=
  if text = "" then ""
  else String.mk (replaceChar '\x27' "&#x27;".data
    (replaceChar '"' "&quot;".data
      (replaceChar '>' "&gt;".data
        (replaceChar '<' "&lt;".data
          (replaceChar '&' "&amp;".data text.data)))))

/-! ## Status store (src/mongo.js:50-90)

The `seen_proposals` collection keyed by `proposalId` (unique index,
src/mongo.js:57).  A document is modelled as a `(proposalId, status)` pair;
the `updatedAt` timestamp is not read anywhere and is omitted.  Store
availability is a flag of the environment: when the store is down, the raw
driver operations fail. -/

abbrev Store := List (Int × String)

/-- `collection.findOne({ proposalId })` on an available store. -/
def findStatus (store : Store) (proposalId : Int) : Option String :=
  (store.find? (fun r => r.1 == proposalId)).map (fun r => r.2)

/-- `collection.updateOne({ proposalId }, { $set: ... }, { upsert: true })`:
update the (unique) matching document, else insert. -/
def upsertStatus : Store → Int → String → Store
  | [], proposalId, status => [(proposalId, status)]
  | r :: rest, proposalId, status =>
      if r.1 == proposalId then (proposalId, status) :: rest
      else r :: upsertStatus rest proposalId status

/-- The fetched proposal object returned by `get_proposal`
(src/index.js:374-426), restricted to the fields the dispatch handlers read.
Timestamps are milliseconds as `Int`. -/
structure Proposal where
  title : Option String := none
  description : Option String := none
  link : Option String := none
  deadline : Option Int := none
  voting_end : Option Int := none
  snapshot_block : Option Int := none
  voting_power_snapshot : Option Int := none
  total_voting_power : Option String := none
deriving DecidableEq

/-- Environment of a dispatch-handler run: whether the MongoDB status store
is reachable, the outcome `fetchProposal` would produce (`none` = the fetch
throws), and the current wall-clock time in ms. -/
structure Env where
  storeUp : Bool
  fetchRes : Option Proposal
  now : Int
deriving DecidableEq

/-- src/mongo.js:65-75 — `getStatus`: the `try` reads the collection, the
`catch` logs the MongoDB error and returns `null`.  A store failure is
therefore indistinguishable from an absent record. -/
def getStatus (env : Env) (store : Store) (proposalId : Int) : Option String :=
  if env.storeUp then findStatus store proposalId else none

/-- src/mongo.js:77-90 — `setStatus`: the `try` upserts, the `catch` logs and
**re-throws**, so a store failure propagates to `setStatus`'s caller. -/
def setStatus (env : Env) (store : Store) (proposalId : Int) (status : String) :
    Except Unit Store :=
  if env.storeUp then Except.ok (upsertStatus store proposalId status)
  else Except.error ()

/-! ## Notification message rendering (src/index.js:292-315 and 351-362)

The template literals of the two dispatch handlers, split into the same
pieces the source computes.  `escapeHtml` is applied exactly where the
source applies it: to the title and the description — the `link` is
interpolated into the anchor tag verbatim. -/

/-- src/index.js:292 and 351 — `const linkText = link ? `\n\n🔗 <a href="${link}">Vote Here</a>` : ''`.
The interpolated link is NOT escaped. -/
def linkTextOf (link : Option String) : String :=
  match tstr link with
  | some l => "\n\n🔗 <a href=\"" ++ l ++ "\">Vote Here</a>"
  | none => ""

/-- src/index.js:294-306 — deadline text, rendered only when a proposal was
fetched and it carries a truthy `deadline` or `voting_end` (ms timestamps). -/
def deadlineTextOf (proposal : Option Proposal) (now : Int) : String :=
  match proposal with
  | none => ""
  | some p =>
    match tnum p.deadline <|> tnum p.voting_end with
    | none => ""
    | some dl =>
      let timeLeft := dl - now
      if timeLeft > 0 then
        let days := Int.ediv timeLeft (1000 * 60 * 60 * 24)
        let hours := Int.ediv (Int.emod timeLeft (1000 * 60 * 60 * 24)) (1000 * 60 * 60)
        "\n⏰ <b>Deadline:</b> " ++ toString days ++ "d " ++ toString hours ++ "h remaining"
      else ""

/-- src/index.js:308-313 — voting-power snapshot line of the new-proposal
message. -/
def snapshotTextNew (proposal : Option Proposal) : String :=
  match proposal with
  | none => ""
  | some p =>
    if (tnum p.snapshot_block).isSome || (tnum p.voting_power_snapshot).isSome then
      "\n📊 <b>Voting Power:</b> " ++ jsOrStr p.total_voting_power "Unknown" ++ " veNEAR"
    else ""

/-- src/index.js:353-360 — voting-snapshot block of the approval message. -/
def snapshotTextApproval (proposal : Option Proposal) : String :=
  match proposal with
  | none => ""
  | some p =>
    match tnum p.snapshot_block with
    | some blockHeight =>
        "\n\n📊 <b>Voting Snapshot:</b>\n" ++ "   Block: " ++ toString blockHeight ++ "\n"
          ++ "   Total Power: " ++ jsOrStr p.total_voting_power "Unknown" ++ " veNEAR"
    | none => ""

/-- Everything of the new-proposal message before the link text
(src/index.js:315, all pieces but `${linkText}`). -/
def newProposalBase (title description : String) (proposal : Option Proposal) (now : Int) :
    String :=
  "📥 <b>New Proposal</b>\n\n<b>" ++ escapeHtml title ++ "</b>\n\n" ++ escapeHtml description
    ++ deadlineTextOf proposal now ++ snapshotTextNew proposal

/-- src/index.js:315 — the full new-proposal notification message. -/
def newProposalMessage (title description : String) (link : Option String)
    (proposal : Option Proposal) (now : Int) : String :=
  newProposalBase title description proposal now ++ linkTextOf link

/-- Everything of the approval message before the link text
(src/index.js:362, all pieces but `${linkText}`). -/
def approvalBase (title description : String) (proposal : Option Proposal) : String :=
  "🗳️ <b>Proposal Approved for Voting</b>\n\n<b>" ++ escapeHtml title ++ "</b>\n\n"
    ++ escapeHtml description ++ snapshotTextApproval proposal

/-- src/index.js:362 — the full approval notification message. -/
def approvalMessage (title description : String) (link : Option String)
    (proposal : Option Proposal) : String :=
  approvalBase title description proposal ++ linkTextOf link

/-! Spec-side renderers for the escaping claim.  The spec demands that *all*
user-supplied text fields — including the link interpolated into the anchor
tag — are escaped for the markup format.  These differ from the source
renderers only in escaping the link. -/

/-- Link text as the spec describes it: the interpolated link escaped like
every other user-supplied field. -/
def linkTextEscaped (link : Option String) : String :=
  match tstr link with
  | some l => "\n\n🔗 <a href=\"" ++ escapeHtml l ++ "\">Vote Here</a>"
  | none => ""

/-- The new-proposal message as the spec describes it (link escaped too). -/
def newProposalMessageSpec (title description : String) (link : Option String)
    (proposal : Option Proposal) (now : Int) : String :=
  newProposalBase title description proposal now ++ linkTextEscaped link

/-- The approval message as the spec describes it (link escaped too). -/
def approvalMessageSpec (title description : String) (link : Option String)
    (proposal : Option Proposal) : String :=
  approvalBase title description proposal ++ linkTextEscaped link

/-! ## Dispatch handlers (src/index.js:272-371)

Each handler is modelled as a function from an environment, the status
store and the event's extracted data to the ordered trace of calls it
makes (`Act`s) and the resulting store.  An `Act` is recorded at the
point the source issues the call, whether or not the call succeeds. -/

/-- The `eventDetails` object built by `extractProposalDetails`
(src/index.js:258-269). -/
structure EventDetails where
  proposalId : Option Int := none
  title : Option String := none
  description : Option String := none
  link : Option String := none
  proposerId : Option String := none
  votingOptions : Option (List String) := none
deriving DecidableEq

/-- One observable call issued by a dispatch handler, in program order:
a status-store read, a `fetchProposal` RPC, a `sendMessageToAllChats`
broadcast round, or a status-store write. -/
inductive Act
  | getStatusA (proposalId : Int)
  | fetchA (proposalId : Int)
  | broadcastA (message : String)
  | setStatusA (proposalId : Int) (status : String)
deriving DecidableEq

/-- Result of the enrichment phase of a handler: the fetch calls made, the
fetched proposal (if any) and the final title/description/link. -/
structure Enriched where
  fetchActs : List Act
  proposal : Option Proposal
  title : String
  description : String
  link : Option String
deriving DecidableEq

/-- src/index.js:276-290 — enrichment in `handleNewProposal`: `fetchProposal`
is called only when the payload's title or description is missing/empty;
a fetch failure (inner try/catch) keeps the payload-derived fields. -/
def enrichNew (env : Env) (proposalId : Int) (d : EventDetails) : Enriched :=
  let title0 := jsOrStr d.title ("Proposal #" ++ toString proposalId)
  let description0 := jsOrStr d.description ""
  if (tstr d.title).isNone || (tstr d.description).isNone then
    match env.fetchRes with
    | some p =>
        { fetchActs := [Act.fetchA proposalId]
          proposal := some p
          title := jsOrStr d.title (jsOrStr p.title ("Proposal #" ++ toString proposalId))
          description := jsOrStr d.description (jsOrStr p.description "")
          link := tstr d.link <|> p.link }
    | none =>
        { fetchActs := [Act.fetchA proposalId], proposal := none
          title := title0, description := description0, link := d.link }
  else
    { fetchActs := [], proposal := none
      title := title0, description := description0, link := d.link }

/-- src/index.js:337-349 — enrichment in `handleProposalApproval`:
`fetchProposal` is called unconditionally (there is no completeness guard);
payload fields still take precedence over fetched ones. -/
def enrichApproval (env : Env) (proposalId : Int) (d : EventDetails) : Enriched :=
  match env.fetchRes with
  | some p =>
      { fetchActs := [Act.fetchA proposalId]
        proposal := some p
        title := jsOrStr d.title (jsOrStr p.title ("Proposal #" ++ toString proposalId))
        description := jsOrStr d.description (jsOrStr p.description "")
        link := tstr d.link <|> p.link }
  | none =>
      { fetchActs := [Act.fetchA proposalId], proposal := none
        title := jsOrStr d.title ("Proposal #" ++ toString proposalId)
        description := jsOrStr d.description "", link := d.link }

/-- The body of the `try` block of `handleNewProposal` (src/index.js:273-320):
enrich, render, broadcast, then `setStatus(proposalId, 'Seen')`.  The second
component is the outcome of the final store write (the only fallible call
whose error escapes this block). -/
def newProposalTry (env : Env) (store : Store) (proposalId : Int) (d : EventDetails) :
    List Act × Except Unit Store :=
  let en := enrichNew env proposalId d
  let message := newProposalMessage en.title en.description en.link en.proposal env.now
  (en.fetchActs ++ [Act.broadcastA message, Act.setStatusA proposalId "Seen"],
   setStatus env store proposalId "Seen")

/-- src/index.js:272-324 — `handleNewProposal`: the outer catch (line 321)
logs and swallows any error, so the handler always returns normally; on a
failed store write the store is left unchanged. -/
def handleNewProposal (env : Env) (store : Store) (proposalId : Int) (d : EventDetails) :
    List Act × Store :=
  let r := newProposalTry env store proposalId d
  (r.1, match r.2 with | Except.ok s => s | Except.error _ => store)

/-- The body of the `try` block of `handleProposalApproval`
(src/index.js:328-367): read the status, return if already `'Approved'`,
otherwise enrich (always fetching), render, broadcast, then
`setStatus(proposalId, 'Approved')`. -/
def approvalTry (env : Env) (store : Store) (proposalId : Int) (d : EventDetails) :
    List Act × Except Unit Store :=
  let status := getStatus env store proposalId
  if status == some "Approved" then
    ([Act.getStatusA proposalId], Except.ok store)
  else
    let en := enrichApproval env proposalId d
    let message := approvalMessage en.title en.description en.link en.proposal
    ([Act.getStatusA proposalId] ++ en.fetchActs
       ++ [Act.broadcastA message, Act.setStatusA proposalId "Approved"],
     setStatus env store proposalId "Approved")

/-- src/index.js:327-371 — `handleProposalApproval`: the outer catch
(line 368) logs and swallows any error, so the handler always returns
normally; on a failed store write the store is left unchanged. -/
def handleProposalApproval (env : Env) (store : Store) (proposalId : Int) (d : EventDetails) :
    List Act × Store :=
  let r := approvalTry env store proposalId d
  (r.1, match r.2 with | Except.ok s => s | Except.error _ => store)

/-- Number of broadcast rounds (`sendMessageToAllChats` calls) in a trace. -/
def broadcastCount (tr : List Act) : Nat :=
  (tr.filter (fun a => match a with | Act.broadcastA _ => true | _ => false)).length

/-- Number of status-store writes (`setStatus` calls) in a trace. -/
def writeCount (tr : List Act) : Nat :=
  (tr.filter (fun a => match a with | Act.setStatusA _ _ => true | _ => false)).length

/-- `true` iff no status-store write occurs before the first broadcast of
the trace. -/
def writesOnlyAfterBroadcast : List Act → Bool
  | [] => true
  | Act.broadcastA _ :: _ => true
  | Act.setStatusA _ _ :: _ => false
  | _ :: rest => writesOnlyAfterBroadcast rest

/-! ## Chat registry (src/mongo.js:93-172) and broadcaster (src/telegram.js:45-129)

The `subscribed_chats` collection, keyed by `chatId` (unique index,
src/mongo.js:58).  The outcome of each Telegram `sendMessage` HTTP call is
supplied by the environment as a function of the destination chat id. -/

/-- A `subscribed_chats` document.  `isActive = none` models a document
without the field (still matched by `getAllChats`'s `$ne: false` filter). -/
structure ChatDoc where
  chatId : String
  chatType : String
  chatName : String
  subscribedAt : Int
  lastActive : Int
  isActive : Option Bool
  unsubscribedAt : Option Int
deriving DecidableEq

abbrev Registry := List ChatDoc

/-- src/mongo.js:144-158 — `getAllChats`: all documents whose `isActive` is
not `false` (absent counts as active). -/
def getAllChats (reg : Registry) : Registry :=
  reg.filter (fun c => c.isActive != some false)

/-- src/mongo.js:121-142 — `removeChat`: soft-delete by setting
`isActive: false` and `unsubscribedAt`; returns whether a document matched.
(`chatId` carries a unique index, so updating every match equals updating
the single match.) -/
def removeChat (reg : Registry) (now : Int) (chatId : String) : Bool × Registry :=
  ((reg.find? (fun c => c.chatId == chatId)).isSome,
   reg.map (fun c =>
     if c.chatId == chatId then { c with isActive := some false, unsubscribedAt := some now }
     else c))

/-- src/mongo.js:160-172 — `updateChatActivity`: refresh `lastActive`. -/
def updateChatActivity (reg : Registry) (now : Int) (chatId : String) : Registry :=
  reg.map (fun c => if c.chatId == chatId then { c with lastActive := now } else c)

/-- Outcome of one Telegram `sendMessage` HTTP round trip: success, an API
error response carrying `error_code`, or a thrown network error. -/
inductive SendOutcome
  | ok
  | apiError (code : Int)
  | networkError
deriving DecidableEq

/-- src/telegram.js:45-79 — `sendMessage`: returns whether the send
succeeded; on an API error with `error_code` 400 or 403 the chat is
deactivated via `removeChat` first; a thrown network error is caught and
yields `false`. -/
def sendMessage (send : String → SendOutcome) (now : Int) (reg : Registry) (chatId : String) :
    Bool × Registry :=
  match send chatId with
  | SendOutcome.ok => (true, reg)
  | SendOutcome.apiError code =>
      if code == 400 || code == 403 then (false, (removeChat reg now chatId).2)
      else (false, reg)
  | SendOutcome.networkError => (false, reg)

/-- src/telegram.js:105-129 — `sendMessageToAllChats`: snapshot the active
chats, send to each sequentially, counting successes and refreshing
`lastActive` on success; returns the success count (and, in this model, the
final registry). -/
def sendMessageToAllChats (send : String → SendOutcome) (now : Int) (reg : Registry)
    (_text : String) : Nat × Registry :=
  let chats := getAllChats reg
  chats.foldl
    (fun acc chat =>
      let r := sendMessage send now acc.2 chat.chatId
      if r.1 then (acc.1 + 1, updateChatActivity r.2 now chat.chatId)
      else (acc.1, r.2))
    (0, reg)

/-! ## Event normalization (src/index.js:228-269)

Raw NEP-297 stream events have no fixed shape; three extractors probe a
fixed ordered list of candidate field paths and take the first JS-truthy
match.  `event.data` can be either an array of items or a plain object, and
the source indexes it both ways — `RawData` keeps the two shapes apart. -/

/-- An element of `event.event_data` / an array-shaped `event.data`. -/
structure RawItem where
  proposal_id : Option Int := none
  account_id : Option String := none
  title : Option String := none
  description : Option String := none
  link : Option String := none
  proposer_id : Option String := none
  voting_options : Option (List String) := none
deriving DecidableEq

/-- A nested plain object: `event.event`, `event.args`, or an object-shaped
`event.data`. -/
structure RawInner where
  proposal_id : Option Int := none
  account_id : Option String := none
  contract_id : Option String := none
  type : Option String := none
  event_type : Option String := none
deriving DecidableEq

/-- The two possible shapes of `event.data`. -/
inductive RawData
  | arr (items : List RawItem)
  | obj (o : RawInner)
deriving DecidableEq

/-- A raw decoded stream event, restricted to the fields the extractors
probe. -/
structure RawEvent where
  event_data : Option (List RawItem) := none
  data : Option RawData := none
  proposal_id : Option Int := none
  args : Option RawInner := none
  event : Option RawInner := none
  account_id : Option String := none
  contract_id : Option String := none
  event_event : Option String := none
  event_type : Option String := none
  type : Option String := none
  kind : Option String := none
  method : Option String := none
deriving DecidableEq

/-- `event.data` when it is an array (`event.data?.[0]`, `Array.isArray`). -/
def dataArr (e : RawEvent) : Option (List RawItem) :=
  match e.data with
  | some (RawData.arr items) => some items
  | _ => none

/-- `event.data` when it is a plain object (`event.data?.proposal_id` etc.). -/
def dataObj (e : RawEvent) : Option RawInner :=
  match e.data with
  | some (RawData.obj o) => some o
  | _ => none

/-- src/index.js:228-236 — `extractProposalId`: `||`-chain over seven
candidate paths.  Every alternative but the last passes through JS
truthiness (`tnum`: the number 0 is falsy); the last alternative is
`Array.isArray(event.data) && event.data.find(item => item?.proposal_id)?.proposal_id`. -/
def extractProposalId (e : RawEvent) : Option Int :=
  tnum ((e.event_data.bind List.head?).bind RawItem.proposal_id) <|>
  tnum (((dataArr e).bind List.head?).bind RawItem.proposal_id) <|>
  tnum e.proposal_id <|>
  tnum ((dataObj e).bind RawInner.proposal_id) <|>
  tnum (e.args.bind RawInner.proposal_id) <|>
  tnum (e.event.bind RawInner.proposal_id) <|>
  ((dataArr e).bind fun items =>
    (items.find? (fun it => (tnum it.proposal_id).isSome)).bind RawItem.proposal_id)

/-- src/index.js:238-246 — `extractEventType`: `||`-chain over seven
candidate paths (empty strings are falsy). -/
def extractEventType (e : RawEvent) : Option String :=
  tstr e.event_event <|>
  tstr e.event_type <|>
  tstr e.type <|>
  tstr e.kind <|>
  tstr e.method <|>
  tstr (e.event.bind RawInner.type) <|>
  ((dataObj e).bind RawInner.event_type)

/-- src/index.js:248-256 — `extractAccountId`: `||`-chain over seven
candidate paths (empty strings are falsy). -/
def extractAccountId (e : RawEvent) : Option String :=
  tstr e.account_id <|>
  tstr e.contract_id <|>
  tstr ((dataObj e).bind RawInner.account_id) <|>
  tstr ((e.event_data.bind List.head?).bind RawItem.account_id) <|>
  tstr (((dataArr e).bind List.head?).bind RawItem.account_id) <|>
  tstr (e.event.bind RawInner.contract_id) <|>
  (e.event.bind RawInner.account_id)

/-- src/index.js:258-269 — `extractProposalDetails`:
`event.event_data?.[0] || event.data?.[0] || {}` then field projection. -/
def extractProposalDetails (e : RawEvent) : EventDetails :=
  let eventData := ((e.event_data.bind List.head?) <|> ((dataArr e).bind List.head?)).getD {}
  { proposalId := eventData.proposal_id
    title := eventData.title
    description := eventData.description
    link := eventData.link
    proposerId := eventData.proposer_id
    votingOptions := eventData.voting_options }

/-! ## Per-event dispatch (src/index.js:171-188) and reconnect backoff
(src/index.js:194-212) -/

/-- Substring test on character lists (JS `String.prototype.includes`). -/
def subChars (needle : List Char) : List Char → Bool
  | [] => needle.isEmpty
  | c :: rest => needle.isPrefixOf (c :: rest) || subChars needle rest

/-- JS `s.includes(sub)`. -/
def strContains (s sub : String) : Bool := subChars sub.data s.data

/-- src/index.js:177 — `if (accountId && accountId !== VOTING_CONTRACT) continue;`
with JS truthiness on the extracted account id. -/
def accountMismatch (contract : String) (accountId : Option String) : Bool :=
  match tstr accountId with
  | some a => a != contract
  | none => false

/-- src/index.js:171-188 — the body of the per-event loop: extract the
triple, drop cross-contract events, drop events without a truthy proposal
id or event type, then dispatch on the (loosely matched) event type. -/
def processEvent (contract : String) (env : Env) (store : Store) (e : RawEvent) :
    List Act × Store :=
  let proposalId := extractProposalId e
  let eventType := extractEventType e
  let accountId := extractAccountId e
  if accountMismatch contract accountId then ([], store)
  else
    match tnum proposalId, tstr eventType with
    | some pid, some ety =>
        let eventDetails := extractProposalDetails e
        if ety == "approve_proposal" || strContains ety "approve" then
          handleProposalApproval env store pid eventDetails
        else if ety == "create_proposal" || strContains ety "create" then
          handleNewProposal env store pid eventDetails
        else ([], store)
    | _, _ => ([], store)

/-- src/index.js:28 — `maxReconnectAttempts`. -/
def maxReconnectAttempts : Nat := 5

/-- src/index.js:199 — `Math.min(1000 * Math.pow(2, reconnectAttempts), 30000)`. -/
def reconnectDelay (attempt : Nat) : Nat := min (1000 * 2 ^ attempt) 30000

/-- src/index.js:194-212 — the close handler: when the attempt counter is
below the ceiling, schedule a reconnect after `reconnectDelay` and increment
the counter; otherwise give up (no delay scheduled). -/
def onClose (attempts : Nat) : Option Nat × Nat :=
  if attempts < maxReconnectAttempts then
    (some (reconnectDelay attempts), attempts + 1)
  else (none, attempts)

/-- The delays scheduled by `k` consecutive closes starting from attempt
counter `attempts` (the counter is reset to 0 on every successful open,
src/index.js:154). -/
def delaysAfterCloses : Nat → Nat → List (Option Nat)
  | 0, _ => []
  | k + 1, attempts =>
      let r := onClose attempts
      r.1 :: delaysAfterCloses k r.2

/-! ## Helper lemmas -/

/-- Upserting a status makes it the status found for that key. -/
theorem findStatus_upsertStatus (store : Store) (proposalId : Int) (status : String) :
    findStatus (upsertStatus store proposalId status) proposalId = some status := by
  induction store with
  | nil => simp [upsertStatus, findStatus]
  | cons r rest ih =>
      by_cases h : r.1 == proposalId
      · simp [upsertStatus, h, findStatus]
      · simpa [upsertStatus, h, findStatus] using ih

/-- The enrichment of `handleNewProposal` fetches at most once. -/
theorem enrichNew_fetchActs (env : Env) (proposalId : Int) (d : EventDetails) :
    (enrichNew env proposalId d).fetchActs = []
      ∨ (enrichNew env proposalId d).fetchActs = [Act.fetchA proposalId] := by
  unfold enrichNew
  by_cases h : ((tstr d.title).isNone || (tstr d.description).isNone) = true
  · simp only [h, if_true]
    cases env.fetchRes <;> simp
  · simp only [h, if_false]
    simp

/-- The enrichment of `handleProposalApproval` always fetches exactly once. -/
theorem enrichApproval_fetchActs (env : Env) (proposalId : Int) (d : EventDetails) :
    (enrichApproval env proposalId d).fetchActs = [Act.fetchA proposalId] := by
  unfold enrichApproval
  cases env.fetchRes <;> simp

/-- A trace of the shape `fetches ++ [broadcast, write]`, with at most one
leading fetch, never writes before its broadcast. -/
theorem waob_shape (acts : List Act) (proposalId : Int) (message status : String)
    (h : acts = [] ∨ acts = [Act.fetchA proposalId]) :
    writesOnlyAfterBroadcast
      (acts ++ [Act.broadcastA message, Act.setStatusA proposalId status]) = true := by
  rcases h with h | h <;> subst h <;> rfl

/-- C8: The reconnect delay computed on the k-th consecutive close, for
attempts 1 through 5 with base 1000 ms and cap 30000 ms, equals 1000, 2000,
4000, 8000, 16000 ms respectively (`min(1000 * 2^attempt, 30000)` with the
attempt counter starting at 0), and any delay the formula computes is capped
at 30000 ms. -/
theorem reconnectBackoff :
    delaysAfterCloses 5 0
      = [some 1000, some 2000, some 4000, some 8000, some 16000]
    ∧ ∀ attempt : Nat, reconnectDelay attempt ≤ 30000 := by
  refine ⟨by decide, fun attempt => ?_⟩
  exact Nat.min_le_right _ _

/-- C3: In both dispatch handlers the status-store write (`setStatus` with
`'Seen'` for Created events, `'Approved'` for Approved events) is issued
only after the broadcast (`sendMessageToAllChats`) for the same event; no
trace of either handler contains a status write before its broadcast. -/
theorem statusWriteAfterBroadcast (env : Env) (store : Store) (proposalId : Int)
    (d : EventDetails) :
    writesOnlyAfterBroadcast (handleNewProposal env store proposalId d).1 = true
    ∧ writesOnlyAfterBroadcast (handleProposalApproval env store proposalId d).1 = true := by
  constructor
  · show writesOnlyAfterBroadcast (newProposalTry env store proposalId d).1 = true
    show writesOnlyAfterBroadcast
      ((enrichNew env proposalId d).fetchActs
        ++ [Act.broadcastA _, Act.setStatusA proposalId "Seen"]) = true
    exact waob_shape _ proposalId _ "Seen" (enrichNew_fetchActs env proposalId d)
  · show writesOnlyAfterBroadcast (approvalTry env store proposalId d).1 = true
    unfold approvalTry
    by_cases h : (getStatus env store proposalId == some "Approved") = true
    · simp only [h, if_true]
      rfl
    · simp only [h, if_false]
      show writesOnlyAfterBroadcast
        ([Act.getStatusA proposalId] ++ (enrichApproval env proposalId d).fetchActs
          ++ [Act.broadcastA _, Act.setStatusA proposalId "Approved"]) = true
      rw [enrichApproval_fetchActs]
      rfl

/-- When the stored status is already `'Approved'`, `approvalTry` stops at
the read. -/
theorem approvalTry_hit (env : Env) (store : Store) (proposalId : Int) (d : EventDetails)
    (hb : (getStatus env store proposalId == some "Approved") = true) :
    approvalTry env store proposalId d = ([Act.getStatusA proposalId], Except.ok store) := by
  unfold approvalTry
  simp only [hb, if_true]

/-- When the stored status is already `'Approved'`, the approval handler is
a read-only no-op. -/
theorem handleApproval_hit (env : Env) (store : Store) (proposalId : Int) (d : EventDetails)
    (hb : (getStatus env store proposalId == some "Approved") = true) :
    handleProposalApproval env store proposalId d = ([Act.getStatusA proposalId], store) := by
  unfold handleProposalApproval
  rw [approvalTry_hit env store proposalId d hb]

/-- When the stored status is not `'Approved'` and the store is up, the
approval handler reads, fetches, broadcasts, and writes `'Approved'`. -/
theorem handleApproval_miss (env : Env) (store : Store) (proposalId : Int) (d : EventDetails)
    (hup : env.storeUp = true)
    (h : findStatus store proposalId ≠ some "Approved") :
    handleProposalApproval env store proposalId d
      = ([Act.getStatusA proposalId, Act.fetchA proposalId,
          Act.broadcastA (approvalMessage (enrichApproval env proposalId d).title
            (enrichApproval env proposalId d).description (enrichApproval env proposalId d).link
            (enrichApproval env proposalId d).proposal),
          Act.setStatusA proposalId "Approved"],
         upsertStatus store proposalId "Approved") := by
  have hb : (getStatus env store proposalId == some "Approved") = false := by
    simp only [getStatus, hup, if_true]
    exact beq_eq_false_iff_ne.mpr h
  unfold handleProposalApproval approvalTry
  simp only [hb, Bool.false_eq_true, if_false, setStatus, hup, if_true,
    enrichApproval_fetchActs]
  rfl

/-- C1: For every proposal identifier, processing two Approved events in
sequence with the status store available performs exactly one broadcast
round and one status write: the first `handleProposalApproval` call
broadcasts and commits `'Approved'`, and the second reads `'Approved'` and
returns without broadcasting or writing. -/
theorem approvalIdempotent (store : Store) (proposalId : Int) (d1 d2 : EventDetails)
    (f1 f2 : Option Proposal) (n1 n2 : Int)
    (h : findStatus store proposalId ≠ some "Approved") :
    broadcastCount ((handleProposalApproval ⟨true, f1, n1⟩ store proposalId d1).1
        ++ (handleProposalApproval ⟨true, f2, n2⟩
              (handleProposalApproval ⟨true, f1, n1⟩ store proposalId d1).2 proposalId d2).1) = 1
    ∧ writeCount ((handleProposalApproval ⟨true, f1, n1⟩ store proposalId d1).1
        ++ (handleProposalApproval ⟨true, f2, n2⟩
              (handleProposalApproval ⟨true, f1, n1⟩ store proposalId d1).2 proposalId d2).1) = 1
    ∧ findStatus (handleProposalApproval ⟨true, f1, n1⟩ store proposalId d1).2 proposalId
        = some "Approved"
    ∧ handleProposalApproval ⟨true, f2, n2⟩
          (handleProposalApproval ⟨true, f1, n1⟩ store proposalId d1).2 proposalId d2
        = ([Act.getStatusA proposalId],
           (handleProposalApproval ⟨true, f1, n1⟩ store proposalId d1).2) := by
  have h1 := handleApproval_miss ⟨true, f1, n1⟩ store proposalId d1 rfl h
  have hf := findStatus_upsertStatus store proposalId "Approved"
  have hb2 : (getStatus ⟨true, f2, n2⟩ (upsertStatus store proposalId "Approved") proposalId
      == some "Approved") = true := by
    simp [getStatus, hf]
  have h2 := handleApproval_hit ⟨true, f2, n2⟩ (upsertStatus store proposalId "Approved")
    proposalId d2 hb2
  refine ⟨?_, ?_, ?_, ?_⟩ <;>
    simp only [h1, h2, hf, broadcastCount, writeCount, List.filter, List.length,
      List.append_eq, List.cons_append, List.nil_append]

/-- Witness for `approvalIdempotent` at a concrete input. -/
theorem approvalIdempotent_witness :
    broadcastCount ((handleProposalApproval ⟨true, none, 0⟩ [] 1 {} ).1
        ++ (handleProposalApproval ⟨true, none, 0⟩
              (handleProposalApproval ⟨true, none, 0⟩ [] 1 {} ).2 1 {} ).1) = 1
    ∧ writeCount ((handleProposalApproval ⟨true, none, 0⟩ [] 1 {} ).1
        ++ (handleProposalApproval ⟨true, none, 0⟩
              (handleProposalApproval ⟨true, none, 0⟩ [] 1 {} ).2 1 {} ).1) = 1
    ∧ findStatus (handleProposalApproval ⟨true, none, 0⟩ [] 1 {} ).2 1 = some "Approved"
    ∧ handleProposalApproval ⟨true, none, 0⟩
          (handleProposalApproval ⟨true, none, 0⟩ [] 1 {} ).2 1 {}
        = ([Act.getStatusA 1], (handleProposalApproval ⟨true, none, 0⟩ [] 1 {} ).2) :=
  approvalIdempotent [] 1 {} {} none none 0 0 (by decide)

/-- Event details carrying a complete payload (title and description). -/
def dTD : EventDetails := { title := some "T", description := some "D" }

/-- Store contents after processing Created(1), then Approved(1), then a
redelivered Created(1), starting from an empty store with the store up and
the proposal fetch failing. -/
def storeAfterCreate : Store := (handleNewProposal ⟨true, none, 0⟩ [] 1 dTD).2

def storeAfterApprove : Store := (handleProposalApproval ⟨true, none, 0⟩ storeAfterCreate 1 dTD).2

def storeAfterRedeliveredCreate : Store :=
  (handleNewProposal ⟨true, none, 0⟩ storeAfterApprove 1 dTD).2

/-- C2 counterexample: the claim that an `'Approved'` record is never
downgraded to `'Seen'` fails at a concrete input — after Created(1),
Approved(1) the record is `'Approved'`, but a redelivered Created(1)
(processed by `handleNewProposal`, which writes unconditionally) overwrites
it with `'Seen'`. -/
theorem statusMonotonic_counterexample :
    findStatus storeAfterApprove 1 = some "Approved"
    ∧ findStatus storeAfterRedeliveredCreate 1 = some "Seen" := by
  constructor <;> rfl

/-- C2 amended: status transitions are monotonic only against redelivered
Approved events — once a proposal's record is `'Approved'`,
`handleProposalApproval` is a read-only no-op; but `handleNewProposal`
writes `'Seen'` unconditionally, so a redelivered Created event for an
Approved proposal does downgrade its record to `'Seen'`. -/
theorem statusMonotonic_amended (env : Env) (store : Store) (proposalId : Int)
    (d : EventDetails) (hup : env.storeUp = true)
    (happ : findStatus store proposalId = some "Approved") :
    handleProposalApproval env store proposalId d = ([Act.getStatusA proposalId], store)
    ∧ findStatus (handleNewProposal env store proposalId d).2 proposalId = some "Seen" := by
  constructor
  · exact handleApproval_hit env store proposalId d (by simp [getStatus, hup, happ])
  · have h2 : (handleNewProposal env store proposalId d).2
        = upsertStatus store proposalId "Seen" := by
      unfold handleNewProposal newProposalTry
      simp [setStatus, hup]
    rw [h2, findStatus_upsertStatus]

/-- Witness for `statusMonotonic_amended` at a concrete input. -/
theorem statusMonotonic_amended_witness :
    handleProposalApproval ⟨true, none, 0⟩ [(1, "Approved")] 1 {} = ([Act.getStatusA 1], [(1, "Approved")])
    ∧ findStatus (handleNewProposal ⟨true, none, 0⟩ [(1, "Approved")] 1 {}).2 1 = some "Seen" :=
  statusMonotonic_amended ⟨true, none, 0⟩ [(1, "Approved")] 1 {} rfl (by decide)

/-- C4 counterexample: with the status store unavailable and proposal 1
already `'Approved'`, the store read returns `null` instead of failing, the
store write inside the `try` does throw, yet `handleProposalApproval`
returns normally with an unchanged store after having broadcast again — the
store failure is suppressed locally, not propagated to the caller. -/
theorem storeFailurePropagation_counterexample :
    getStatus ⟨false, none, 0⟩ [(1, "Approved")] 1 = none
    ∧ (approvalTry ⟨false, none, 0⟩ [(1, "Approved")] 1 {}).2 = Except.error ()
    ∧ broadcastCount (handleProposalApproval ⟨false, none, 0⟩ [(1, "Approved")] 1 {}).1 = 1
    ∧ (handleProposalApproval ⟨false, none, 0⟩ [(1, "Approved")] 1 {}).2 = [(1, "Approved")] :=
  ⟨rfl, rfl, rfl, rfl⟩

/-- C4 amended: a store failure is suppressed locally rather than propagated
— `getStatus` swallows the error and returns `null`, and both handlers'
outer catch swallows the `setStatus` throw, so with the store down each
handler still broadcasts once and returns normally with the store
unchanged; the caller of the event handlers never observes the failure. -/
theorem storeFailureSuppressed (env : Env) (store : Store) (proposalId : Int)
    (d : EventDetails) (hdown : env.storeUp = false) :
    getStatus env store proposalId = none
    ∧ (handleProposalApproval env store proposalId d).2 = store
    ∧ broadcastCount (handleProposalApproval env store proposalId d).1 = 1
    ∧ (handleNewProposal env store proposalId d).2 = store
    ∧ broadcastCount (handleNewProposal env store proposalId d).1 = 1 := by
  have hb : (getStatus env store proposalId == some "Approved") = false := by
    simp [getStatus, hdown]
  refine ⟨by simp [getStatus, hdown], ?_, ?_, ?_, ?_⟩
  · unfold handleProposalApproval approvalTry
    simp [hb, setStatus, hdown]
  · unfold handleProposalApproval approvalTry
    simp only [hb, Bool.false_eq_true, if_false, enrichApproval_fetchActs]
    rfl
  · unfold handleNewProposal newProposalTry
    simp [setStatus, hdown]
  · unfold handleNewProposal newProposalTry
    rcases enrichNew_fetchActs env proposalId d with h | h <;>
      simp only [h, broadcastCount, List.filter, List.append_eq, List.cons_append,
        List.nil_append] <;> rfl

/-- Witness for `storeFailureSuppressed` at a concrete input. -/
theorem storeFailureSuppressed_witness :
    getStatus ⟨false, none, 7⟩ [(2, "Approved")] 2 = none
    ∧ (handleProposalApproval ⟨false, none, 7⟩ [(2, "Approved")] 2 dTD).2 = [(2, "Approved")]
    ∧ broadcastCount (handleProposalApproval ⟨false, none, 7⟩ [(2, "Approved")] 2 dTD).1 = 1
    ∧ (handleNewProposal ⟨false, none, 7⟩ [(2, "Approved")] 2 dTD).2 = [(2, "Approved")]
    ∧ broadcastCount (handleNewProposal ⟨false, none, 7⟩ [(2, "Approved")] 2 dTD).1 = 1 :=
  storeFailureSuppressed ⟨false, none, 7⟩ [(2, "Approved")] 2 dTD rfl

/-- A registry of three active chats. -/
def chatA : ChatDoc :=
  { chatId := "100", chatType := "private", chatName := "Alice",
    subscribedAt := 0, lastActive := 0, isActive := some true, unsubscribedAt := none }

def chatB : ChatDoc :=
  { chatId := "200", chatType := "group", chatName := "Builders",
    subscribedAt := 0, lastActive := 0, isActive := some true, unsubscribedAt := none }

def chatC : ChatDoc :=
  { chatId := "300", chatType := "private", chatName := "Carol",
    subscribedAt := 0, lastActive := 0, isActive := some true, unsubscribedAt := none }

def reg3 : Registry := [chatA, chatB, chatC]

/-- Send outcomes where the 2nd chat fails with the given Telegram
`error_code` and every other chat succeeds. -/
def sendFailSecond (code : Int) : String → SendOutcome :=
  fun chatId => if chatId == "200" then SendOutcome.apiError code else SendOutcome.ok

/-- C5: With 3 active chats where the 2nd send fails with a
permanent-failure code (Telegram `error_code` 400 or 403) and the other two
succeed, `sendMessageToAllChats` returns delivered-count 2, the 2nd chat is
deactivated by `removeChat`, and `getAllChats` subsequently returns only the
2 remaining active chats. -/
theorem broadcastPermanentFailure (code : Int) (hcode : code = 400 ∨ code = 403) :
    (sendMessageToAllChats (sendFailSecond code) 5 reg3 "msg").1 = 2
    ∧ getAllChats (sendMessageToAllChats (sendFailSecond code) 5 reg3 "msg").2
        = [{ chatA with lastActive := 5 }, { chatC with lastActive := 5 }]
    ∧ ((sendMessageToAllChats (sendFailSecond code) 5 reg3 "msg").2.find?
          (fun c => c.chatId == "200")).map (fun c => c.isActive)
        = some (some false) := by
  rcases hcode with rfl | rfl <;> exact ⟨rfl, rfl, rfl⟩

/-- Witness for `broadcastPermanentFailure` with `error_code` 400. -/
theorem broadcastPermanentFailure_witness :
    (sendMessageToAllChats (sendFailSecond 400) 5 reg3 "msg").1 = 2
    ∧ getAllChats (sendMessageToAllChats (sendFailSecond 400) 5 reg3 "msg").2
        = [{ chatA with lastActive := 5 }, { chatC with lastActive := 5 }]
    ∧ ((sendMessageToAllChats (sendFailSecond 400) 5 reg3 "msg").2.find?
          (fun c => c.chatId == "200")).map (fun c => c.isActive)
        = some (some false) :=
  broadcastPermanentFailure 400 (Or.inl rfl)

/-- C6: An inbound event whose account id resolves (to a truthy value)
different from the configured governance contract is dropped before any
dispatch — no handler runs, nothing is broadcast, nothing is written; and
an event whose account id does not resolve at all is not dropped by this
rule (with a resolvable proposal id and an approve-type event type it is
dispatched to `handleProposalApproval`). -/
theorem crossContractDrop :
    (∀ (contract : String) (env : Env) (store : Store) (e : RawEvent) (a : String),
        extractAccountId e = some a → a ≠ "" → a ≠ contract →
        processEvent contract env store e = ([], store))
    ∧ (∀ (contract : String) (env : Env) (store : Store) (e : RawEvent) (pid : Int)
        (ety : String),
        extractAccountId e = none →
        tnum (extractProposalId e) = some pid →
        tstr (extractEventType e) = some ety →
        (ety == "approve_proposal" || strContains ety "approve") = true →
        processEvent contract env store e
          = handleProposalApproval env store pid (extractProposalDetails e)) := by
  constructor
  · intro contract env store e a ha hne hnc
    have hmm : accountMismatch contract (extractAccountId e) = true := by
      rw [ha]
      simp [accountMismatch, tstr, hne, hnc]
    unfold processEvent
    simp [hmm]
  · intro contract env store e pid ety hacc hpid hety happrove
    have hmm : accountMismatch contract (extractAccountId e) = false := by
      rw [hacc]
      rfl
    unfold processEvent
    simp only [hmm, Bool.false_eq_true, if_false, hpid, hety, happrove, if_true]

/-- Witness for `crossContractDrop`: a concrete foreign-contract event is
dropped, and a concrete event with no resolvable account id is dispatched. -/
theorem crossContractDrop_witness :
    processEvent "vote.gov" ⟨true, none, 0⟩ []
        { account_id := some "evil.near", proposal_id := some 7,
          type := some "approve_proposal" }
      = ([], [])
    ∧ processEvent "vote.gov" ⟨true, none, 0⟩ []
        { proposal_id := some 7, type := some "approve_proposal" }
      = handleProposalApproval ⟨true, none, 0⟩ [] 7
          (extractProposalDetails { proposal_id := some 7, type := some "approve_proposal" }) :=
  ⟨crossContractDrop.1 "vote.gov" ⟨true, none, 0⟩ []
      { account_id := some "evil.near", proposal_id := some 7, type := some "approve_proposal" }
      "evil.near" rfl (by decide) (by decide),
   crossContractDrop.2 "vote.gov" ⟨true, none, 0⟩ []
      { proposal_id := some 7, type := some "approve_proposal" } 7 "approve_proposal"
      rfl rfl rfl (by decide)⟩

/-- A proposal-id field path that is JS-falsy: absent or the number 0. -/
def zeroOrNone (x : Option Int) : Prop := x = none ∨ x = some 0

instance (x : Option Int) : Decidable (zeroOrNone x) := by
  unfold zeroOrNone; infer_instance

/-- A JS-falsy numeric field filters to `none`. -/
theorem tnum_zeroOrNone {x : Option Int} (h : zeroOrNone x) : tnum x = none := by
  rcases h with rfl | rfl <;> rfl

/-- C10: When every probed proposal-id field path of an event is JS-falsy
(absent or the number 0), the `||`-chained extraction yields no proposal id
— `extractProposalId` returns `none` — and the event is dropped by the
`!proposalId` guard with no dispatch, no notification and no status write. -/
theorem zeroProposalIdDrop (contract : String) (env : Env) (store : Store) (e : RawEvent)
    (h1 : zeroOrNone ((e.event_data.bind List.head?).bind RawItem.proposal_id))
    (h2 : zeroOrNone (((dataArr e).bind List.head?).bind RawItem.proposal_id))
    (h3 : zeroOrNone e.proposal_id)
    (h4 : zeroOrNone ((dataObj e).bind RawInner.proposal_id))
    (h5 : zeroOrNone (e.args.bind RawInner.proposal_id))
    (h6 : zeroOrNone (e.event.bind RawInner.proposal_id))
    (h7 : ∀ it ∈ (dataArr e).getD [], zeroOrNone it.proposal_id) :
    extractProposalId e = none ∧ processEvent contract env store e = ([], store) := by
  have hlast : ((dataArr e).bind fun items =>
      (items.find? (fun it => (tnum it.proposal_id).isSome)).bind RawItem.proposal_id)
        = none := by
    cases hda : dataArr e with
    | none => rfl
    | some items =>
        have hfind : items.find? (fun it => (tnum it.proposal_id).isSome) = none := by
          apply List.find?_eq_none.mpr
          intro it hit
          have hz : zeroOrNone it.proposal_id := by
            apply h7
            rw [hda]
            simpa using hit
          simp [tnum_zeroOrNone hz]
        simp [hfind]
  have hex : extractProposalId e = none := by
    unfold extractProposalId
    rw [tnum_zeroOrNone h1, tnum_zeroOrNone h2, tnum_zeroOrNone h3, tnum_zeroOrNone h4,
      tnum_zeroOrNone h5, tnum_zeroOrNone h6, hlast]
    rfl
  refine ⟨hex, ?_⟩
  unfold processEvent
  by_cases hmm : accountMismatch contract (extractAccountId e) = true
  · simp [hmm]
  · simp only [Bool.not_eq_true] at hmm
    simp only [hmm, Bool.false_eq_true, if_false, hex]
    rfl

/-- A concrete event whose proposal id is 0 under every path that resolves. -/
def eZero : RawEvent :=
  { event_data := some [{ proposal_id := some 0 }],
    data := some (RawData.arr [{ proposal_id := some 0 }]),
    proposal_id := some 0,
    args := some { proposal_id := some 0 },
    event := some { proposal_id := some 0, type := some "approve_proposal" },
    account_id := some "vote.gov" }

/-- Witness for `zeroProposalIdDrop` at the concrete event `eZero`. -/
theorem zeroProposalIdDrop_witness :
    extractProposalId eZero = none
    ∧ processEvent "vote.gov" ⟨true, none, 0⟩ [] eZero = ([], []) :=
  zeroProposalIdDrop "vote.gov" ⟨true, none, 0⟩ [] eZero
    (by decide) (by decide) (by decide) (by decide) (by decide) (by decide) (by decide)

/-- The trace of `handleNewProposal`, explicitly. -/
theorem handleNewProposal_fst (env : Env) (store : Store) (proposalId : Int)
    (d : EventDetails) :
    (handleNewProposal env store proposalId d).1
      = (enrichNew env proposalId d).fetchActs
        ++ [Act.broadcastA (newProposalMessage (enrichNew env proposalId d).title
              (enrichNew env proposalId d).description (enrichNew env proposalId d).link
              (enrichNew env proposalId d).proposal env.now),
            Act.setStatusA proposalId "Seen"] := rfl

/-- When the payload is incomplete the new-proposal enrichment fetches. -/
theorem enrichNew_fetchActs_pos (env : Env) (proposalId : Int) (d : EventDetails)
    (h : ((tstr d.title).isNone || (tstr d.description).isNone) = true) :
    (enrichNew env proposalId d).fetchActs = [Act.fetchA proposalId] := by
  unfold enrichNew
  simp only [h, if_true]
  cases env.fetchRes <;> rfl

/-- When the payload carries both title and description the new-proposal
enrichment does not fetch. -/
theorem enrichNew_fetchActs_neg (env : Env) (proposalId : Int) (d : EventDetails)
    (h : ((tstr d.title).isNone || (tstr d.description).isNone) = false) :
    (enrichNew env proposalId d).fetchActs = [] := by
  unfold enrichNew
  simp only [h, Bool.false_eq_true, if_false]

/-- The trace of `handleProposalApproval` when the status read does not
return `'Approved'`. -/
theorem handleApproval_miss_fst (env : Env) (store : Store) (proposalId : Int)
    (d : EventDetails)
    (hb : (getStatus env store proposalId == some "Approved") = false) :
    (handleProposalApproval env store proposalId d).1
      = [Act.getStatusA proposalId] ++ (enrichApproval env proposalId d).fetchActs
        ++ [Act.broadcastA (approvalMessage (enrichApproval env proposalId d).title
              (enrichApproval env proposalId d).description
              (enrichApproval env proposalId d).link
              (enrichApproval env proposalId d).proposal),
            Act.setStatusA proposalId "Approved"] := by
  show (approvalTry env store proposalId d).1 = _
  unfold approvalTry
  simp only [hb, Bool.false_eq_true, if_false]

/-- C7 counterexample: the claim that the fetcher is called only when title
or description is missing fails for `handleProposalApproval` — with a
payload carrying both title and description, its trace still contains the
`fetchProposal` call. -/
theorem enrichmentConditional_counterexample :
    dTD.title = some "T" ∧ dTD.description = some "D"
    ∧ Act.fetchA 1 ∈ (handleProposalApproval ⟨true, none, 0⟩ [] 1 dTD).1 := by
  refine ⟨rfl, rfl, ?_⟩
  rw [handleApproval_miss_fst ⟨true, none, 0⟩ [] 1 dTD rfl, enrichApproval_fetchActs]
  simp

/-- C7 amended: enrichment is conditional on payload completeness only in
`handleNewProposal` (the fetcher is called iff title or description is
missing from the payload); `handleProposalApproval` calls the fetcher
unconditionally whenever it does not return early on an already-Approved
status. -/
theorem enrichmentConditional_amended :
    (∀ (env : Env) (store : Store) (proposalId : Int) (d : EventDetails),
        Act.fetchA proposalId ∈ (handleNewProposal env store proposalId d).1
          ↔ ((tstr d.title).isNone || (tstr d.description).isNone) = true)
    ∧ (∀ (env : Env) (store : Store) (proposalId : Int) (d : EventDetails),
        (getStatus env store proposalId == some "Approved") = false →
        Act.fetchA proposalId ∈ (handleProposalApproval env store proposalId d).1) := by
  constructor
  · intro env store proposalId d
    rw [handleNewProposal_fst]
    by_cases h : ((tstr d.title).isNone || (tstr d.description).isNone) = true
    · rw [enrichNew_fetchActs_pos env proposalId d h, h]
      simp
    · have h' : ((tstr d.title).isNone || (tstr d.description).isNone) = false :=
        Bool.not_eq_true _ ▸ Bool.of_not_eq_true h
      rw [enrichNew_fetchActs_neg env proposalId d h', h']
      simp
  · intro env store proposalId d hb
    rw [handleApproval_miss_fst env store proposalId d hb, enrichApproval_fetchActs]
    simp

/-- Witness for `enrichmentConditional_amended` at concrete inputs. -/
theorem enrichmentConditional_amended_witness :
    (¬ Act.fetchA 1 ∈ (handleNewProposal ⟨true, none, 0⟩ [] 1 dTD).1)
    ∧ Act.fetchA 2 ∈ (handleProposalApproval ⟨true, none, 0⟩ [] 2 dTD).1 := by
  constructor
  · intro hmem
    have h := (enrichmentConditional_amended.1 ⟨true, none, 0⟩ [] 1 dTD).mp hmem
    exact absurd h (by decide)
  · exact enrichmentConditional_amended.2 ⟨true, none, 0⟩ [] 2 dTD rfl

/-- C9 counterexample: the claim that all user-supplied text fields —
including the link interpolated into the anchor tag — are escaped fails at
a concrete input: with a link containing a double quote, the rendered
messages differ from the fully-escaped renderings the spec describes (the
quote reaches the `href` attribute unescaped). -/
theorem escapeAllFields_counterexample :
    newProposalMessage "T" "D" (some "x\"y") none 0
        ≠ newProposalMessageSpec "T" "D" (some "x\"y") none 0
    ∧ approvalMessage "T" "D" (some "x\"y") none
        ≠ approvalMessageSpec "T" "D" (some "x\"y") none
    ∧ escapeHtml "x\"y" = "x&quot;y" := by
  refine ⟨?_, ?_, rfl⟩ <;> decide

/-- C9 amended: in the rendered notification messages the title and the
description are escaped for HTML (with no link both handlers' messages equal
the fully-escaped renderings), but the link value is interpolated into the
anchor tag verbatim, unescaped. -/
theorem escapeTitleDescriptionRawLink (t d : String) (p : Option Proposal) (now : Int)
    (l : String) (hl : l ≠ "") :
    newProposalMessage t d none p now = newProposalMessageSpec t d none p now
    ∧ approvalMessage t d none p = approvalMessageSpec t d none p
    ∧ newProposalMessage t d (some l) p now
        = newProposalMessage t d none p now ++ ("\n\n🔗 <a href=\"" ++ l ++ "\">Vote Here</a>")
    ∧ approvalMessage t d (some l) p
        = approvalMessage t d none p ++ ("\n\n🔗 <a href=\"" ++ l ++ "\">Vote Here</a>") := by
  have hlink : linkTextOf (some l) = "\n\n🔗 <a href=\"" ++ l ++ "\">Vote Here</a>" := by
    simp [linkTextOf, tstr, hl]
  refine ⟨rfl, rfl, ?_, ?_⟩
  · rw [newProposalMessage, newProposalMessage, hlink]
    show _ = newProposalBase t d p now ++ "" ++ _
    rw [String.append_empty]
  · rw [approvalMessage, approvalMessage, hlink]
    show _ = approvalBase t d p ++ "" ++ _
    rw [String.append_empty]

/-- Witness for `escapeTitleDescriptionRawLink` at a concrete input. -/
theorem escapeTitleDescriptionRawLink_witness :
    newProposalMessage "T" "D" none none 0 = newProposalMessageSpec "T" "D" none none 0
    ∧ approvalMessage "T" "D" none none = approvalMessageSpec "T" "D" none none
    ∧ newProposalMessage "T" "D" (some "x\"y") none 0
        = newProposalMessage "T" "D" none none 0
            ++ ("\n\n🔗 <a href=\"" ++ "x\"y" ++ "\">Vote Here</a>")
    ∧ approvalMessage "T" "D" (some "x\"y") none
        = approvalMessage "T" "D" none none
            ++ ("\n\n🔗 <a href=\"" ++ "x\"y" ++ "\">Vote Here</a>") :=
  escapeTitleDescriptionRawLink "T" "D" none 0 "x\"y" (by decide)
